import Mathlib

/-!
# Verification of the `pylinalg` numeric core

Shallow embedding of `src/pylinalg/func/quaternion.py` and
`src/pylinalg/func/vector.py` over the real numbers, together with theorems
settling the specification claims.  NumPy float arrays are modelled as exact
real values; the exact `==` comparisons the source performs on floats become
exact equality tests on `ℝ` (or on `ℚ` where the branch structure is the whole
point and executability matters).
-/

namespace Pylinalg

/-- A quaternion in `xyzw` layout, as the trailing-dimension-4 arrays of the
source. -/
structure Quat where
  x : ℝ
  y : ℝ
  z : ℝ
  w : ℝ

/-- A 3-vector `(x, y, z)`. -/
structure V3 where
  x : ℝ
  y : ℝ
  z : ℝ

/-- Model of `np.cross` on 3-vectors. -/
def cross (a b : V3) : V3 :=
  ⟨a.y * b.z - a.z * b.y, a.z * b.x - a.x * b.z, a.x * b.y - a.y * b.x⟩

/-- Model of `np.dot` on 3-vectors. -/
def dot (a b : V3) : ℝ :=
  a.x * b.x + a.y * b.y + a.z * b.z

/-- Squared Euclidean norm of a quaternion. -/
def qnormSq (q : Quat) : ℝ :=
  q.x ^ 2 + q.y ^ 2 + q.z ^ 2 + q.w ^ 2

/-- Euclidean norm of a quaternion (`np.linalg.norm` on the 4 components). -/
noncomputable def qnorm (q : Quat) : ℝ :=
  Real.sqrt (qnormSq q)

/-- Model of `quaternion_multiply` (quaternion.py lines 100-112): the Hamilton product.
The vector part is `a[3]*b[:3] + b[3]*a[:3] + np.cross(a[:3], b[:3])`, the
scalar part `a[3]*b[3] - a[:3].dot(b[:3])`; both are fully computed before the
output buffer is written, so the pure function is the faithful model even for
the aliased `out=` calls the Euler-angle loop makes. -/
def quaternion_multiply (a b : Quat) : Quat :=
  let axyz : V3 := ⟨a.x, a.y, a.z⟩
  let bxyz : V3 := ⟨b.x, b.y, b.z⟩
  let xyz : V3 := ⟨a.w * bxyz.x + b.w * axyz.x + (cross axyz bxyz).x,
                   a.w * bxyz.y + b.w * axyz.y + (cross axyz bxyz).y,
                   a.w * bxyz.z + b.w * axyz.z + (cross axyz bxyz).z⟩
  ⟨xyz.x, xyz.y, xyz.z, a.w * b.w - dot axyz bxyz⟩

/-- Model of `quaternion_inverse` (quaternion.py lines 209-217): copy the input and
negate the first three components. -/
def quaternion_inverse (q : Quat) : Quat :=
  ⟨-q.x, -q.y, -q.z, q.w⟩

/-- Squared Euclidean norm of a 3-vector. -/
def vnormSq (v : V3) : ℝ :=
  v.x ^ 2 + v.y ^ 2 + v.z ^ 2

/-- Model of `np.linalg.norm` of a 3-vector. -/
noncomputable def vnorm (v : V3) : ℝ :=
  Real.sqrt (vnormSq v)

/-- Model of `quaternion_make_from_axis_angle` (quaternion.py lines 246-259), modelled
with its buffer effect.  The source converts `axis` with
`np.asarray(axis, dtype=float)` — the identity on a float64 array — and then
executes `axis /= np.linalg.norm(axis, axis=-1)`, an in-place division that
overwrites that very buffer.  The first component of the result is the
returned quaternion, the second is the content of the axis buffer after the
call. -/
noncomputable def quaternion_make_from_axis_angle_state (axis : V3) (angle : ℝ) :
    Quat × V3 :=
  let n := vnorm axis
  let axis' : V3 := ⟨axis.x / n, axis.y / n, axis.z / n⟩
  (⟨axis'.x * Real.sin (angle / 2), axis'.y * Real.sin (angle / 2),
    axis'.z * Real.sin (angle / 2), Real.cos (angle / 2)⟩, axis')

/-- The quaternion returned by `quaternion_make_from_axis_angle`. -/
noncomputable def quaternion_make_from_axis_angle (axis : V3) (angle : ℝ) : Quat :=
  (quaternion_make_from_axis_angle_state axis angle).1

lemma vnormSq_nonneg (v : V3) : 0 ≤ vnormSq v := by
  obtain ⟨x, y, z⟩ := v
  simp only [vnormSq]
  positivity

lemma vnormSq_eq_zero_iff {v : V3} : vnormSq v = 0 ↔ v = ⟨0, 0, 0⟩ := by
  obtain ⟨x, y, z⟩ := v
  simp only [vnormSq, V3.mk.injEq]
  constructor
  · intro h
    refine ⟨?_, ?_, ?_⟩ <;> nlinarith [sq_nonneg x, sq_nonneg y, sq_nonneg z]
  · rintro ⟨rfl, rfl, rfl⟩
    ring

lemma qnormSq_axis_angle (axis : V3) (angle : ℝ) (h : axis ≠ ⟨0, 0, 0⟩) :
    qnormSq (quaternion_make_from_axis_angle axis angle) = 1 := by
  have hsq : 0 < vnormSq axis :=
    lt_of_le_of_ne (vnormSq_nonneg axis) (fun h0 => h (vnormSq_eq_zero_iff.mp h0.symm))
  have hn : 0 < vnorm axis := Real.sqrt_pos.mpr hsq
  have hn2 : vnorm axis ^ 2 = vnormSq axis := Real.sq_sqrt hsq.le
  obtain ⟨x, y, z⟩ := axis
  simp only [quaternion_make_from_axis_angle, quaternion_make_from_axis_angle_state,
    qnormSq]
  have key : (x / vnorm ⟨x, y, z⟩ * Real.sin (angle / 2)) ^ 2 +
      (y / vnorm ⟨x, y, z⟩ * Real.sin (angle / 2)) ^ 2 +
      (z / vnorm ⟨x, y, z⟩ * Real.sin (angle / 2)) ^ 2 +
      Real.cos (angle / 2) ^ 2 =
      vnormSq ⟨x, y, z⟩ / vnorm ⟨x, y, z⟩ ^ 2 * Real.sin (angle / 2) ^ 2 +
      Real.cos (angle / 2) ^ 2 := by
    simp only [vnormSq]
    field_simp
    ring
  rw [key, hn2, div_self hsq.ne', one_mul]
  exact Real.sin_sq_add_cos_sq (angle / 2)

lemma qnormSq_multiply (a b : Quat) :
    qnormSq (quaternion_multiply a b) = qnormSq a * qnormSq b := by
  obtain ⟨ax, ay, az, aw⟩ := a
  obtain ⟨bx, by', bz, bw⟩ := b
  simp only [quaternion_multiply, cross, dot, qnormSq]
  ring

/-- Claim C10: the unit-quaternion invariant is established and preserved: for
every non-zero axis (of any length) and every angle,
`quaternion_make_from_axis_angle` returns a quaternion of Euclidean norm 1;
and for unit quaternions `a`, `b`, both `quaternion_multiply a b` and
`quaternion_inverse a` have norm 1. -/
theorem unit_invariant_established_and_preserved :
    (∀ (axis : V3) (angle : ℝ), axis ≠ ⟨0, 0, 0⟩ →
      qnorm (quaternion_make_from_axis_angle axis angle) = 1) ∧
    (∀ a b : Quat, qnorm a = 1 → qnorm b = 1 →
      qnorm (quaternion_multiply a b) = 1) ∧
    (∀ q : Quat, qnorm q = 1 → qnorm (quaternion_inverse q) = 1) := by
  refine ⟨?_, ?_, ?_⟩
  · intro axis angle h
    rw [qnorm, qnormSq_axis_angle axis angle h, Real.sqrt_one]
  · intro a b ha hb
    rw [qnorm] at ha hb ⊢
    rw [qnormSq_multiply, Real.sqrt_eq_one.mp ha, Real.sqrt_eq_one.mp hb, one_mul,
      Real.sqrt_one]
  · intro q h
    obtain ⟨x, y, z, w⟩ := q
    rw [qnorm] at h ⊢
    have hinv : qnormSq (quaternion_inverse ⟨x, y, z, w⟩) = qnormSq ⟨x, y, z, w⟩ := by
      simp only [quaternion_inverse, qnormSq]
      ring
    rw [hinv]
    exact h

/-- Witness for C10 at axis `(0,0,2)` (length 2, not unit), angle `0`, and the
identity quaternion. -/
theorem unit_invariant_established_and_preserved_witness :
    ((⟨0, 0, 2⟩ : V3) ≠ ⟨0, 0, 0⟩ ∧
      qnorm (quaternion_make_from_axis_angle ⟨0, 0, 2⟩ 0) = 1) ∧
    (qnorm (⟨0, 0, 0, 1⟩ : Quat) = 1 ∧
      qnorm (quaternion_multiply ⟨0, 0, 0, 1⟩ ⟨0, 0, 0, 1⟩) = 1) ∧
    qnorm (quaternion_inverse ⟨0, 0, 0, 1⟩) = 1 := by
  have hne : (⟨0, 0, 2⟩ : V3) ≠ ⟨0, 0, 0⟩ := by
    intro h
    exact two_ne_zero (by simpa using congrArg V3.z h)
  have hid : qnorm (⟨0, 0, 0, 1⟩ : Quat) = 1 := by
    rw [qnorm, show qnormSq ⟨0, 0, 0, 1⟩ = 1 by norm_num [qnormSq], Real.sqrt_one]
  exact ⟨⟨hne, unit_invariant_established_and_preserved.1 ⟨0, 0, 2⟩ 0 hne⟩,
    ⟨hid, unit_invariant_established_and_preserved.2.1 _ _ hid hid⟩,
    unit_invariant_established_and_preserved.2.2 _ hid⟩

/-- Claim C7: for every unit quaternion `q`,
`quaternion_multiply (quaternion_inverse q) q` is the identity quaternion
`(0, 0, 0, 1)`, `quaternion_inverse` negating the vector part and keeping the
scalar part. -/
theorem inverse_mul_eq_identity (q : Quat) (h : qnorm q = 1) :
    quaternion_multiply (quaternion_inverse q) q = ⟨0, 0, 0, 1⟩ := by
  have hsq : qnormSq q = 1 := by
    have := Real.sqrt_eq_one.mp (by rw [← qnorm]; exact h)
    exact this
  obtain ⟨x, y, z, w⟩ := q
  simp only [qnormSq] at hsq
  simp only [quaternion_multiply, quaternion_inverse, cross, dot, Quat.mk.injEq]
  refine ⟨by ring, by ring, by ring, by linear_combination hsq⟩

/-! ## C1: `quaternion_to_matrix` over a shared flat output buffer

`quaternion_to_matrix` (quaternion.py lines 28-74) writes a batch of 4x4
matrices into one output buffer of shape `(*batch, 4, 4)`.  We model the
buffer flat and row-major, as `np.empty` allocates it: the matrix of batch
element `k` occupies positions `16*k .. 16*k+15`, entry `(i, j)` sitting at
`16*k + 4*i + j`.  The source zeroes the whole buffer (`out[:] = 0`), sets
the per-matrix diagonals through an `as_strided` view with strides
`(16*itemsize, 5*itemsize)` — i.e. every position `p` with `p % 16 % 5 = 0` —
and then performs nine vectorized assignments `out[..., i, j] = value`.
-/

/-- One vectorized assignment `out[..., i, j] = v(quaternion[k])` on the flat
buffer: position `p` belongs to batch element `p / 16`, and its entry index
within the matrix is `p % 16`. -/
def writeEntry (i j : ℕ) (v : Quat → ℝ) (qs : ℕ → Quat) (buf : ℕ → ℝ) : ℕ → ℝ :=
  fun p => if p % 16 = 4 * i + j then v (qs (p / 16)) else buf p

/-- Model of `quaternion_to_matrix` on the flat shared buffer, assignments in source
order (quaternion.py lines 41-72): zero fill, strided diagonal fill, then the
nine rotation entries with `x2 = x*2`, `xx = x*x2`, etc. -/
def quaternion_to_matrix_buf (qs : ℕ → Quat) : ℕ → ℝ :=
  let b0 : ℕ → ℝ := fun _ => 0
  let b1 : ℕ → ℝ := fun p => if p % 16 % 5 = 0 then 1 else b0 p
  writeEntry 2 2 (fun q => 1 - (q.x * (q.x * 2) + q.y * (q.y * 2))) qs
    (writeEntry 1 2 (fun q => q.y * (q.z * 2) - q.w * (q.x * 2)) qs
      (writeEntry 0 2 (fun q => q.x * (q.z * 2) + q.w * (q.y * 2)) qs
        (writeEntry 2 1 (fun q => q.y * (q.z * 2) + q.w * (q.x * 2)) qs
          (writeEntry 1 1 (fun q => 1 - (q.x * (q.x * 2) + q.z * (q.z * 2))) qs
            (writeEntry 0 1 (fun q => q.x * (q.y * 2) - q.w * (q.z * 2)) qs
              (writeEntry 2 0 (fun q => q.x * (q.z * 2) - q.w * (q.y * 2)) qs
                (writeEntry 1 0 (fun q => q.x * (q.y * 2) + q.w * (q.z * 2)) qs
                  (writeEntry 0 0
                    (fun q => 1 - (q.y * (q.y * 2) + q.z * (q.z * 2))) qs b1))))))))

/-- The matrix entry claimed by C1 (and spec section 4.1): the 3x3 rotation
block written with the claim's abbreviations `x2 = 2x`, `xx = x*x2`, ..., and
a fourth row and fourth column equal to `[0, 0, 0, 1]`. -/
def claim_matrix_entry (q : Quat) (i j : ℕ) : ℝ :=
  let x2 := 2 * q.x
  let y2 := 2 * q.y
  let z2 := 2 * q.z
  let xx := q.x * x2
  let xy := q.x * y2
  let xz := q.x * z2
  let yy := q.y * y2
  let yz := q.y * z2
  let zz := q.z * z2
  let wx := q.w * x2
  let wy := q.w * y2
  let wz := q.w * z2
  match i, j with
  | 0, 0 => 1 - (yy + zz)
  | 0, 1 => xy - wz
  | 0, 2 => xz + wy
  | 1, 0 => xy + wz
  | 1, 1 => 1 - (xx + zz)
  | 1, 2 => yz - wx
  | 2, 0 => xz - wy
  | 2, 1 => yz + wx
  | 2, 2 => 1 - (xx + yy)
  | 3, 3 => 1
  | _, _ => 0

lemma mod16_add (k r : ℕ) (h : r < 16) : (16 * k + r) % 16 = r := by omega

lemma div16_add (k r : ℕ) (h : r < 16) : (16 * k + r) / 16 = k := by omega

/-- Claim C1: for every quaternion batch and every batch element `k`, the 4x4
matrix that `quaternion_to_matrix` leaves at block `k` of the shared output
buffer has the claimed rotation block in its upper-left 3x3 corner and exactly
`[0, 0, 0, 1]` as fourth row and fourth column. -/
theorem quaternion_to_matrix_entries (qs : ℕ → Quat) (k : ℕ) (i j : Fin 4) :
    quaternion_to_matrix_buf qs (16 * k + (4 * i.val + j.val)) =
      claim_matrix_entry (qs k) i.val j.val := by
  obtain ⟨i, hi⟩ := i
  obtain ⟨j, hj⟩ := j
  interval_cases i <;> interval_cases j <;>
    simp only [quaternion_to_matrix_buf, writeEntry, claim_matrix_entry] <;>
    norm_num [mod16_add, div16_add] <;> ring

/-! ## C2: `quaternion_make_from_euler_angles`

quaternion.py lines 288-311.  A letter of the `order` string is modelled as a
pair `(axis, is_extrinsic) : Fin 3 × Bool` — the source maps the letter
through `{"X": 0, "Y": 1, "Z": 2}[x.upper()]` and `x.isupper()`.  The angles
array is modelled by its indexing function `ℕ → ℝ`; letter `i` of the order
is paired with `angles i`.
-/

/-- The elementary quaternion the source builds per letter (lines 299-301):
all entries zero, `cos(angle/2)` in the scalar slot, `sin(angle/2)` in the
slot of the letter's axis. -/
noncomputable def elemQuat (ax : Fin 3) (angle : ℝ) : Quat :=
  ⟨if ax = 0 then Real.sin (angle / 2) else 0,
   if ax = 1 then Real.sin (angle / 2) else 0,
   if ax = 2 then Real.sin (angle / 2) else 0,
   Real.cos (angle / 2)⟩

/-- Model of `quaternion_make_from_euler_angles` (lines 288-311): build the elementary
quaternions, start from `quaternions[0]` (`out[:] = quaternions[0]`), then for
`idx = 1, ..., n-1` multiply into the accumulator on the side selected by
`is_extrinsic[idx]`.  An empty order fails (`quaternions[0]` raises
`IndexError`), hence `none`. -/
noncomputable def quaternion_make_from_euler_angles (angles : ℕ → ℝ)
    (order : List (Fin 3 × Bool)) : Option Quat :=
  let n := order.length
  let quats : ℕ → Quat := fun i => elemQuat (order.getD i (0, false)).1 (angles i)
  let ext : ℕ → Bool := fun i => (order.getD i (0, false)).2
  if n = 0 then none
  else
    some ((List.range (n - 1)).foldl
      (fun acc k =>
        if ext (k + 1) then quaternion_multiply acc (quats (k + 1))
        else quaternion_multiply (quats (k + 1)) acc)
      (quats 0))

/-- The left-to-right fold described by the spec: for each subsequent letter,
`accumulator = accumulator * next` if the letter is extrinsic (uppercase),
else `accumulator = next * accumulator`; `i` is the position of the next
letter in the order. -/
noncomputable def spec_euler_fold (angles : ℕ → ℝ) :
    Quat → ℕ → List (Fin 3 × Bool) → Quat
  | acc, _, [] => acc
  | acc, i, (ax, ext) :: rest =>
      spec_euler_fold angles
        (if ext then quaternion_multiply acc (elemQuat ax (angles i))
         else quaternion_multiply (elemQuat ax (angles i)) acc)
        (i + 1) rest

/-- The algorithm as the spec words it: one elementary quaternion per letter,
the first one as initial accumulator, then the fold `spec_euler_fold`. -/
noncomputable def spec_euler (angles : ℕ → ℝ) :
    List (Fin 3 × Bool) → Option Quat
  | [] => none
  | (ax, _) :: rest => some (spec_euler_fold angles (elemQuat ax (angles 0)) 1 rest)

lemma euler_loop_shift (angles : ℕ → ℝ) (os : List (Fin 3 × Bool)) :
    ∀ (s : ℕ) (acc : Quat),
    (List.range os.length).foldl
      (fun acc k =>
        if (os.getD k (0, false)).2 then
          quaternion_multiply acc (elemQuat (os.getD k (0, false)).1 (angles (s + k + 1)))
        else
          quaternion_multiply (elemQuat (os.getD k (0, false)).1 (angles (s + k + 1))) acc)
      acc = spec_euler_fold angles acc (s + 1) os := by
  induction os with
  | nil => intro s acc; rfl
  | cons o os ih =>
    intro s acc
    obtain ⟨ax, ext⟩ := o
    rw [List.length_cons, List.range_succ_eq_map, List.foldl_cons, List.foldl_map]
    simp only [List.getD_cons_zero, List.getD_cons_succ, Nat.add_zero]
    rw [show ∀ a, spec_euler_fold angles a (s + 1) ((ax, ext) :: os) =
        spec_euler_fold angles
          (if ext then quaternion_multiply a (elemQuat ax (angles (s + 1)))
           else quaternion_multiply (elemQuat ax (angles (s + 1))) a)
          (s + 2) os from fun a => rfl]
    rw [show (s + 1 : ℕ) = s + 0 + 1 from by omega]
    simp only [show ∀ k : ℕ, s + (k + 1) + 1 = (s + 1) + k + 1 from fun k => by omega]
    rw [show (s + 0 + 1) + 1 = s + 2 from by omega]
    exact ih (s + 1) _

/-- Claim C2: `quaternion_make_from_euler_angles` equals the spec's fold: one
elementary quaternion per letter, first one as accumulator, each subsequent
one multiplied as `acc * next` when extrinsic (uppercase) and `next * acc`
when intrinsic (lowercase). -/
theorem euler_angles_eq_spec_fold (angles : ℕ → ℝ) (order : List (Fin 3 × Bool)) :
    quaternion_make_from_euler_angles angles order = spec_euler angles order := by
  cases order with
  | nil => rfl
  | cons o os =>
    obtain ⟨ax, ext⟩ := o
    simp only [quaternion_make_from_euler_angles, spec_euler, List.length_cons,
      Nat.succ_ne_zero, if_false, Nat.add_sub_cancel, List.getD_cons_zero,
      List.getD_cons_succ, Option.some.injEq]
    have := euler_loop_shift angles os 0 (elemQuat ax (angles 0))
    simp only [Nat.zero_add] at this
    rw [← this]

/-! ## C3: the degenerate-axis tie-break of `quaternion_make_from_unit_vectors`

quaternion.py lines 159-183.  The claim is purely about which replacement
axis the fallback branch selects, a question of exact `== 0` comparisons and
polynomial arithmetic, so this part is embedded over `ℚ` to keep every branch
decidable and the theorems checkable by `decide`.  The `np.empty` junk the
fallback buffer starts from is modelled by an explicit `init` parameter.
-/

/-- A 3-vector over `ℚ` for the branch-exact fragment. -/
structure V3Q where
  x : ℚ
  y : ℚ
  z : ℚ
  deriving DecidableEq

/-- Model of `np.cross` over `ℚ`. -/
def crossQ (a b : V3Q) : V3Q :=
  ⟨a.y * b.z - a.z * b.y, a.z * b.x - a.x * b.z, a.x * b.y - a.y * b.x⟩

/-- Squared Euclidean norm over `ℚ`; `np.linalg.norm(v) == 0` is exactly
`vnormSqQ v == 0`. -/
def vnormSqQ (v : V3Q) : ℚ :=
  v.x ^ 2 + v.y ^ 2 + v.z ^ 2

/-- The rotation axis `quaternion_make_from_unit_vectors` hands to
`quaternion_make_from_axis_angle` (lines 159-183): `axis = cross(source,
target)`; when its norm is zero the fallback buffer is filled by three masked
assignments in source order — `fallback[y_zero] = (0,1,0)`, then
`fallback[z_zero] = (0,0,1)`, then `fallback[both_nonzero] = (0,-1,1) *
template[[0,2,1]]` — positions not covered by a mask keeping whatever the
buffer held before. -/
def unit_vectors_axis (init source target : V3Q) : V3Q :=
  let axis := crossQ source target
  if vnormSqQ axis = 0 then
    let f1 := if source.y = 0 then (⟨0, 1, 0⟩ : V3Q) else init
    let f2 := if source.z = 0 then (⟨0, 0, 1⟩ : V3Q) else f1
    let f3 := if source.y ≠ 0 ∧ source.z ≠ 0 then
        (⟨0 * source.x, -1 * source.z, 1 * source.y⟩ : V3Q) else f2
    f3
  else axis

/-- Counterexample to C3 as stated: for `source = (1,0,0)` and
`target = (2,0,0)` (parallel, cross product zero) the claim's priority —
`source.y == 0` first — demands axis `(0,1,0)`, but the source's later
`z_zero` assignment overwrites it and the chosen axis is `(0,0,1)`. -/
theorem unit_vectors_axis_counterexample :
    crossQ ⟨1, 0, 0⟩ ⟨2, 0, 0⟩ = ⟨0, 0, 0⟩ ∧
    unit_vectors_axis ⟨0, 0, 0⟩ ⟨1, 0, 0⟩ ⟨2, 0, 0⟩ = ⟨0, 0, 1⟩ ∧
    (⟨0, 0, 1⟩ : V3Q) ≠ ⟨0, 1, 0⟩ := by
  refine ⟨?_, ?_, ?_⟩
  · norm_num [crossQ]
  · norm_num [unit_vectors_axis, crossQ, vnormSqQ]
  · simp only [ne_eq, V3Q.mk.injEq, not_and]
    norm_num

/-- Claim C3, amended: for parallel `source` and `target` the replacement axis
follows the priority (a) if `source.z == 0` the axis is `(0,0,1)` — the
`z_zero` assignment is performed last and wins, in particular when
`source.y == 0` as well; (b) else if `source.y == 0` the axis is `(0,1,0)`;
(c) else the axis is `(0, -source.z, source.y)`; independently of the junk
the fallback buffer started with. -/
theorem unit_vectors_axis_priority (init source target : V3Q)
    (h : crossQ source target = ⟨0, 0, 0⟩) :
    unit_vectors_axis init source target =
      if source.z = 0 then ⟨0, 0, 1⟩
      else if source.y = 0 then ⟨0, 1, 0⟩
      else ⟨0, -source.z, source.y⟩ := by
  have hz : vnormSqQ (crossQ source target) = 0 := by
    rw [h]
    norm_num [vnormSqQ]
  simp only [unit_vectors_axis, hz, if_true, if_pos rfl]
  obtain ⟨sx, sy, sz⟩ := source
  by_cases hy : sy = 0 <;> by_cases hzz : sz = 0 <;> simp_all

/-- Witness for the amended C3 at `source = (0,1,0)`, `target = (0,2,0)` and
junk `(5,5,5)` in the fallback buffer. -/
theorem unit_vectors_axis_priority_witness :
    crossQ ⟨0, 1, 0⟩ ⟨0, 2, 0⟩ = ⟨0, 0, 0⟩ ∧
    unit_vectors_axis ⟨5, 5, 5⟩ ⟨0, 1, 0⟩ ⟨0, 2, 0⟩ =
      (if (⟨0, 1, 0⟩ : V3Q).z = 0 then ⟨0, 0, 1⟩
       else if (⟨0, 1, 0⟩ : V3Q).y = 0 then ⟨0, 1, 0⟩
       else ⟨0, -(⟨0, 1, 0⟩ : V3Q).z, (⟨0, 1, 0⟩ : V3Q).y⟩) :=
  ⟨by norm_num [crossQ],
    unit_vectors_axis_priority ⟨5, 5, 5⟩ ⟨0, 1, 0⟩ ⟨0, 2, 0⟩ (by norm_num [crossQ])⟩

/-! ## C4: `vector_euclidean_to_spherical`

vector.py lines 282-302.  The output buffer starts zeroed.  The two masked
steps use `np.divide(..., where=mask)` / `np.arccos(..., where=mask)` without
an `out=` argument; positions where the mask is false are not computed, and
the documented intent (spec section 4.2: "defaulting to 0") is that the
zeroed destination entry survives there.  We model exactly that: a masked-out
lane keeps the value the destination entry held before the assignment. -/
noncomputable def vector_euclidean_to_spherical (v : V3) : V3 :=
  let r := Real.sqrt (v.x ^ 2 + v.y ^ 2 + v.z ^ 2)
  let len_xz := v.x ^ 2 + v.z ^ 2
  let phi0 : ℝ := if len_xz = 0 then 0 else v.z / Real.sqrt len_xz
  let phi : ℝ := Real.sign v.x * (if len_xz = 0 then phi0 else Real.arccos phi0)
  let theta0 : ℝ := if r = 0 then 0 else v.z / r
  let theta : ℝ := if r = 0 then theta0 else Real.arccos theta0
  ⟨r, phi, theta⟩

/-- Counterexample to C4 as stated: on `(0, 1, 0)` the azimuth is
`arccos(z/r) = arccos 0 = π/2`, not `0`, so the result is not `(1, 0, 0)`. -/
theorem euclidean_to_spherical_y_axis_counterexample :
    vector_euclidean_to_spherical ⟨0, 1, 0⟩ ≠ ⟨1, 0, 0⟩ := by
  intro h
  have hz : (vector_euclidean_to_spherical ⟨0, 1, 0⟩).z = 0 := by rw [h]
  rw [vector_euclidean_to_spherical] at hz
  norm_num [Real.sqrt_one] at hz
  exact Real.pi_ne_zero (by linarith [hz ▸ Real.arccos_zero])

/-- Claim C4, amended: `vector_euclidean_to_spherical (0, 1, 0)` returns
`(1, 0, π/2)`: radius 1, polar angle 0 by the y-axis special case
(`x = z = 0`), and azimuth `arccos(z/r) = arccos 0 = π/2`; no component is
undefined. -/
theorem euclidean_to_spherical_y_axis :
    vector_euclidean_to_spherical ⟨0, 1, 0⟩ = ⟨1, 0, Real.pi / 2⟩ := by
  rw [vector_euclidean_to_spherical]
  norm_num [Real.sqrt_one, Real.arccos_zero]

/-! ## C5: `vector_normalize` and its `[:, None]` indexing

vector.py line 28: `np.divide(vectors, np.linalg.norm(vectors, axis=-1)[:,
None], out=out)`.  The docstring documents input shape `[..., 3]`, but the
norm is reshaped with `[:, None]` — not `[..., None]` — which requires the
norm array to have at least one axis and inserts the new axis at position 1
instead of at the end.  We model the shape computation exactly: `none` is a
shape error (`IndexError` from `[:, None]` on the 0-d norm of a single
vector, or a broadcast failure). -/

/-- NumPy's pairwise broadcast of two dimension sizes. -/
def broadcast2 (a b : ℕ) : Option ℕ :=
  if a = b then some a else if a = 1 then some b else if b = 1 then some a else none

/-- Broadcast of two shapes given with trailing dimensions first. -/
def broadcastRev : List ℕ → List ℕ → Option (List ℕ)
  | [], ys => some ys
  | xs, [] => some xs
  | x :: xs, y :: ys => do
      let d ← broadcast2 x y
      let rest ← broadcastRev xs ys
      some (d :: rest)

/-- NumPy shape broadcasting (trailing dimensions align). -/
def broadcastShapes (a b : List ℕ) : Option (List ℕ) :=
  (broadcastRev a.reverse b.reverse).map List.reverse

/-- Model of `x[:, None]` on an array of shape `s`: a 0-d array cannot be sliced
(`IndexError`); otherwise a length-1 axis is inserted after the first. -/
def sliceNoneIndex (s : List ℕ) : Option (List ℕ) :=
  match s with
  | [] => none
  | d :: rest => some (d :: 1 :: rest)

/-- The output shape of `vector_normalize` (vector.py lines 25-28) for input
shape `s`: the norm over the last axis has shape `s.dropLast`, it is indexed
with `[:, None]`, and the division broadcasts the input against that. -/
def vector_normalize_shape (s : List ℕ) : Option (List ℕ) :=
  match sliceNoneIndex s.dropLast with
  | none => none
  | some ns => broadcastShapes s ns

/-- Model of `vector_normalize` restricted to a 2-d batch `(n, 3)` — the only rank on
which the `[:, None]` reshape places the norms correctly: row `k` is divided
componentwise by its own norm. -/
noncomputable def vector_normalize_batch2 (rows : List V3) : List V3 :=
  rows.map fun v => ⟨v.x / vnorm v, v.y / vnorm v, v.z / vnorm v⟩

/-- Claim C5: evaluation at the failing input.  A single vector of shape `[3]`
makes `vector_normalize` fail (the 0-d norm cannot be indexed with
`[:, None]`), and a 3-d batch `(2, 2, 3)` fails to broadcast, contradicting
the claim's "any number of leading dimensions"; the 2-d batch of the claim's
example works and normalizes each row independently. -/
theorem vector_normalize_shape_bug :
    vector_normalize_shape [3] = none ∧
    vector_normalize_shape [2, 2, 3] = none ∧
    vector_normalize_shape [2, 3] = some [2, 3] ∧
    vector_normalize_batch2 [⟨3, 0, 4⟩, ⟨0, 5, 0⟩] =
      [⟨3 / 5, 0, 4 / 5⟩, ⟨0, 1, 0⟩] := by
  refine ⟨by decide, by decide, by decide, ?_⟩
  have h1 : vnorm ⟨3, 0, 4⟩ = 5 := by
    rw [vnorm, show vnormSq ⟨3, 0, 4⟩ = 5 ^ 2 by norm_num [vnormSq],
      Real.sqrt_sq (by norm_num : (0 : ℝ) ≤ 5)]
  have h2 : vnorm ⟨0, 5, 0⟩ = 5 := by
    rw [vnorm, show vnormSq ⟨0, 5, 0⟩ = 5 ^ 2 by norm_num [vnormSq],
      Real.sqrt_sq (by norm_num : (0 : ℝ) ≤ 5)]
  simp only [vector_normalize_batch2, List.map_cons, List.map_nil, h1, h2]
  norm_num

/-! ## C6: input mutation by `quaternion_make_from_axis_angle` -/

/-- Claim C6: evaluation at the failing input.  With a float64 axis buffer
holding `(2, 0, 0)` and angle `0`, the in-place `axis /= np.linalg.norm(axis)`
leaves `(1, 0, 0)` in the caller's buffer — the input array does not hold its
original values after the call. -/
theorem axis_angle_mutates_input :
    (quaternion_make_from_axis_angle_state ⟨2, 0, 0⟩ 0).2 = ⟨1, 0, 0⟩ ∧
    (⟨1, 0, 0⟩ : V3) ≠ ⟨2, 0, 0⟩ := by
  have hn : vnorm ⟨2, 0, 0⟩ = 2 := by
    rw [vnorm, show vnormSq ⟨2, 0, 0⟩ = 2 ^ 2 by norm_num [vnormSq],
      Real.sqrt_sq (by norm_num : (0 : ℝ) ≤ 2)]
  constructor
  · simp only [quaternion_make_from_axis_angle_state, hn]
    norm_num
  · intro h
    have := congrArg V3.x h
    norm_num at this

/-! ## C8 and C9: the `out`/`dtype` contract and the unimplemented stubs -/

/-- The element types relevant to the `out`/`dtype` claims. -/
inductive DType
  | float32
  | float64
  deriving DecidableEq

/-- Python exception kinds the specified functions can signal. -/
inductive PyExc
  | notImplementedError
  | valueError
  | zeroDivisionError
  | floatingPointError
  deriving DecidableEq

/-- The runtime numeric errors among `PyExc`. -/
def PyExc.isNumericError : PyExc → Bool
  | PyExc.zeroDivisionError => true
  | PyExc.floatingPointError => true
  | _ => false

/-- The `out`/`dtype` handling shared by every entry point (e.g.
`quaternion_to_matrix` lines 28-42, `vector_normalize` lines 25-28): `dtype`
is consulted only inside `if out is None: out = np.empty(..., dtype=dtype)`
(`np.empty` defaulting to float64); when a buffer is supplied it is written
and returned as is — no comparison against `dtype` is made and no exception
raised.  The result is the element type of the returned array. -/
def result_dtype (out dtype : Option DType) : Except PyExc DType :=
  Except.ok
    (match out with
     | some d => d
     | none => dtype.getD DType.float64)

/-- Counterexample to C8 as stated: a float32 `out` buffer together with
an explicit float64 `dtype` override does not fail — the call succeeds and
the buffer's type governs. -/
theorem out_dtype_conflict_counterexample :
    result_dtype (some DType.float32) (some DType.float64) =
      Except.ok DType.float32 ∧
    DType.float32 ≠ DType.float64 :=
  ⟨rfl, fun h => DType.noConfusion h⟩

/-- Claim C8, amended: when both a caller-allocated `out` buffer and an
explicit `dtype` override are supplied, the call does not fail: the override
is silently ignored and the buffer's element type governs the result. -/
theorem out_dtype_silently_ignored (b d : DType) :
    result_dtype (some b) (some d) = Except.ok b :=
  rfl

/-- Model of `vector_unproject` (vector.py lines 121-152): body is
`raise NotImplementedError()`. -/
def vector_unproject (vector : ℝ × ℝ) (matrix : Fin 4 → Fin 4 → ℝ) (depth : ℝ) :
    Except PyExc V3 :=
  Except.error PyExc.notImplementedError

/-- Model of `vector_apply_quaternion_rotation` (lines 155-179): unimplemented. -/
def vector_apply_quaternion_rotation (vector : V3) (quaternion : Quat) :
    Except PyExc V3 :=
  Except.error PyExc.notImplementedError

/-- Model of `vector_spherical_to_euclidean` (lines 182-204): unimplemented. -/
def vector_spherical_to_euclidean (spherical : V3) : Except PyExc V3 :=
  Except.error PyExc.notImplementedError

/-- Model of `vector_distance_between` (lines 207-231): unimplemented. -/
def vector_distance_between (vector_a vector_b : V3) : Except PyExc ℝ :=
  Except.error PyExc.notImplementedError

/-- Model of `vector_from_matrix_position` (lines 234-257): unimplemented. -/
def vector_from_matrix_position (homogeneous_matrix : Fin 4 → Fin 4 → ℝ) :
    Except PyExc V3 :=
  Except.error PyExc.notImplementedError

/-- Model of `vector_make_spherical_safe` (lines 305-330): unimplemented. -/
def vector_make_spherical_safe (vector : V3) : Except PyExc V3 :=
  Except.error PyExc.notImplementedError

/-- Claim C9: every declared-but-unimplemented operation fails on every input
with the not-implemented signal — never an `ok` numeric result — and that
signal is not a runtime numeric error. -/
theorem unimplemented_stubs_raise :
    (∀ v m d, vector_unproject v m d = Except.error PyExc.notImplementedError) ∧
    (∀ v q, vector_apply_quaternion_rotation v q =
      Except.error PyExc.notImplementedError) ∧
    (∀ s, vector_spherical_to_euclidean s =
      Except.error PyExc.notImplementedError) ∧
    (∀ a b, vector_distance_between a b =
      Except.error PyExc.notImplementedError) ∧
    (∀ m, vector_from_matrix_position m =
      Except.error PyExc.notImplementedError) ∧
    (∀ v, vector_make_spherical_safe v =
      Except.error PyExc.notImplementedError) ∧
    PyExc.notImplementedError.isNumericError = false :=
  ⟨fun _ _ _ => rfl, fun _ _ => rfl, fun _ => rfl, fun _ _ => rfl,
    fun _ => rfl, fun _ => rfl, rfl⟩

/-- Witness for C7 at the identity quaternion. -/
theorem inverse_mul_eq_identity_witness :
    qnorm (⟨0, 0, 0, 1⟩ : Quat) = 1 ∧
      quaternion_multiply (quaternion_inverse ⟨0, 0, 0, 1⟩) ⟨0, 0, 0, 1⟩ =
        ⟨0, 0, 0, 1⟩ := by
  have hid : qnorm (⟨0, 0, 0, 1⟩ : Quat) = 1 := by
    rw [qnorm, show qnormSq ⟨0, 0, 0, 1⟩ = 1 by norm_num [qnormSq], Real.sqrt_one]
  exact ⟨hid, inverse_mul_eq_identity _ hid⟩

end Pylinalg
